import Mathlib

/-!
Verification of the ESB (Enhanced ShockBurst) driver against its
natural-language specification.

The development shallowly embeds the driver sources:

  * src/lib.rs          configuration and its validation
  * src/payload.rs      in-queue frame layout, header packing, grant handles
  * src/app.rs          application-side entry points
  * src/peripherals.rs  radio wrapper (check_packet, check_ack, stop, ...)
  * src/irq.rs          PTX protocol state machine and role transitions

Machine integers are modelled as Nat with explicit reductions modulo
2 ^ 8 or 2 ^ 16 exactly where the Rust code performs a cast or where a
u8 / u16 addition can wrap.  The framed SPSC ring buffer (bbqueue) is an
external collaborator of the crate; it is modelled from the contract
stated in the specification: a consumer is a list of frames whose read
operation peeks the head and whose release pops it, a producer is a free
byte count together with a grant-in-progress flag, and committing a
write grant appends a frame.  Hardware event flags and register reads
are inputs of each interrupt step.
-/

/-- Crate-wide error type, from src/lib.rs. -/
inductive Error where
  | IncomingQueueFull
  | OutgoingQueueFull
  | GrantInProgress
  | QueueEmpty
  | AlreadySplit
  | InvalidParameters
  | MaximumPacketExceeded
  | InternalError
  | MaximumAttempts
deriving DecidableEq

/-- Ramp-up constant from src/lib.rs, default build (no fast ramp-up). -/
def RAMP_UP_TIME : Nat := 140

/-- Constant offset added to the ack timeout, from src/lib.rs. -/
def RETRANSMIT_DELAY_US_OFFSET : Nat := 62

/-- Protocol configuration, from src/lib.rs.  Fields are u16 or u8 in the
source and carried here as Nat. -/
structure Config where
  wait_for_ack_timeout : Nat
  retransmit_delay : Nat
  maximum_transmit_attempts : Nat
  enabled_pipes : Nat
  tx_power : Nat
  maximum_payload_size : Nat
deriving DecidableEq

/-- Default configuration values, from src/lib.rs. -/
def Config.default : Config where
  wait_for_ack_timeout := 120
  retransmit_delay := 500
  maximum_transmit_attempts := 3
  enabled_pipes := 255
  tx_power := 0
  maximum_payload_size := 252

/-- Configuration validation, from ConfigBuilder::check in src/lib.rs.
The addition wait_for_ack_timeout + RETRANSMIT_DELAY_US_OFFSET is a u16
addition in the source, hence the reduction modulo 2 ^ 16. -/
def ConfigBuilder.check (c : Config) : Except Error Config :=
  let bad_ack_timeout := c.wait_for_ack_timeout < 44
  let bad_retransmit_delay :=
    c.retransmit_delay ≤ (c.wait_for_ack_timeout + RETRANSMIT_DELAY_US_OFFSET) % 65536 ∨
    c.retransmit_delay ≤ RAMP_UP_TIME
  let bad_size := 252 < c.maximum_payload_size
  if bad_ack_timeout ∨ bad_retransmit_delay ∨ bad_size then
    Except.error Error.InvalidParameters
  else
    Except.ok c

/-- A frame as it sits in a queue: the four header bytes followed by the
payload bytes, each byte a Nat below 256. -/
abbrev Frame := List Nat

/-- The non-payload portion of an ESB packet, from src/payload.rs. -/
structure EsbHeader where
  rssi : Nat
  pipe : Nat
  length : Nat
  pid_no_ack : Nat
deriving DecidableEq

/-- Byte index of the RSSI field. -/
def EsbHeader.rssi_idx : Nat := 0

/-- Byte index of the pipe field. -/
def EsbHeader.pipe_idx : Nat := 1

/-- Byte index of the payload length field. -/
def EsbHeader.length_idx : Nat := 2

/-- Byte index of the pid_no_ack field. -/
def EsbHeader.pid_no_ack_idx : Nat := 3

/-- Size of the packed header in bytes. -/
def EsbHeader.header_size : Nat := 4

/-- Packed representation, from EsbHeader::into_bytes in src/payload.rs.
The byte order rssi, pipe, length, pid_no_ack is significant. -/
def EsbHeader.into_bytes (h : EsbHeader) : List Nat :=
  [h.rssi, h.pipe, h.length, h.pid_no_ack]

/-- Unpacking, from EsbHeader::from_bytes in src/payload.rs. -/
def EsbHeader.from_bytes (bytes : List Nat) : EsbHeader where
  rssi := bytes.getD EsbHeader.rssi_idx 0
  pipe := bytes.getD EsbHeader.pipe_idx 0
  length := bytes.getD EsbHeader.length_idx 0
  pid_no_ack := bytes.getD EsbHeader.pid_no_ack_idx 0

/-- Payload length accessor, from EsbHeader::payload_len. -/
def EsbHeader.payload_len (h : EsbHeader) : Nat := h.length

/-- Read-grant accessor for the pipe byte, from PayloadR::pipe. -/
def PayloadR.pipe (f : Frame) : Nat := f.getD EsbHeader.pipe_idx 0

/-- Read-grant accessor for the packet id, from PayloadR::pid. -/
def PayloadR.pid (f : Frame) : Nat := f.getD EsbHeader.pid_no_ack_idx 0 / 2

/-- Read-grant accessor for the no-ack bit, from PayloadR::no_ack.  The
bit is active low: bit zero clear means no acknowledgment requested. -/
def PayloadR.no_ack (f : Frame) : Bool :=
  !(f.getD EsbHeader.pid_no_ack_idx 0 % 2 == 1)

/-- Write-grant length accessor, from PayloadW::payload_len: the current
value of the length byte of the grant. -/
def PayloadW.payload_len (g : Frame) : Nat := g.getD EsbHeader.length_idx 0

/-- Write-grant pipe update, from PayloadW::set_pipe. -/
def PayloadW.set_pipe (g : Frame) (pipe : Nat) : Frame :=
  g.set EsbHeader.pipe_idx pipe

/-- Write-grant rssi update, from PayloadW::set_rssi; the register value
is a u8. -/
def PayloadW.set_rssi (g : Frame) (rssi : Nat) : Frame :=
  g.set EsbHeader.rssi_idx (rssi % 256)

/-- Write-grant from the application side, from PayloadW::new_from_app:
the packed header is written at the start of the raw grant of n bytes;
the payload region is uninitialized in the source and stands as zeros
here. -/
def PayloadW.new_from_app (n : Nat) (header : EsbHeader) : Frame :=
  header.into_bytes ++ List.replicate (n - EsbHeader.header_size) 0

/-- Commit with an explicit used byte count, from PayloadW::commit: the
length byte becomes min of the current length byte and used (stored with
the u8 cast of the source), and payload_len + header_size bytes are
committed.  The pair returned is the updated grant bytes and the number
of committed bytes. -/
def PayloadW.commit (g : Frame) (used : Nat) : Frame × Nat :=
  let payload_len := min (PayloadW.payload_len g) used
  let g2 := g.set EsbHeader.length_idx (payload_len % 256)
  (g2, payload_len + EsbHeader.header_size)

/-- Commit of the whole grant, from PayloadW::commit_all: the grant bytes
are untouched and payload_len + header_size bytes are committed. -/
def PayloadW.commit_all (g : Frame) : Frame × Nat :=
  (g, PayloadW.payload_len g + EsbHeader.header_size)

/-- Error type of the external queue, from the bbqueue crate surface used
by src/app.rs. -/
inductive BbqError where
  | GrantInProgress
  | InsufficientSize
  | AlreadySplit
deriving DecidableEq

/-- Producer endpoint of a framed queue. -/
structure FrameProducer where
  free : Nat
  writeInProgress : Bool
deriving DecidableEq

/-- Modelled from the spec: the framed SPSC ring buffer is an external
collaborator (spec section 3); grant_write(n) yields a write grant of n
bytes, or Full when space is missing, or InProgress when a write grant
is already outstanding.  The grant is represented by its size. -/
def FrameProducer.grant (p : FrameProducer) (n : Nat) :
    Except BbqError (Nat × FrameProducer) :=
  if p.writeInProgress then Except.error BbqError.GrantInProgress
  else if p.free < n then Except.error BbqError.InsufficientSize
  else Except.ok (n, { p with writeInProgress := true })

/-- Application-side packet grant, from EsbApp::grant_packet in
src/app.rs: a write grant of payload_len + header_size bytes is
requested from the app-to-radio producer, queue errors are mapped, and
the header is written into the fresh grant. -/
def EsbApp.grant_packet (p : FrameProducer) (header : EsbHeader) :
    Except Error (Frame × FrameProducer) :=
  match FrameProducer.grant p (header.payload_len + EsbHeader.header_size) with
  | Except.error BbqError.GrantInProgress => Except.error Error.GrantInProgress
  | Except.error BbqError.InsufficientSize => Except.error Error.OutgoingQueueFull
  | Except.error _ => Except.error Error.InternalError
  | Except.ok (n, p2) => Except.ok (PayloadW.new_from_app n header, p2)

/-- Classification of a received packet, from src/peripherals.rs. -/
inductive RxPayloadState where
  | Ack
  | NoAck
  | RepeatedAck
  | RepeatedNoAck
  | BadCRC
deriving DecidableEq

/-- Symbolic value of the radio packet pointer register: which DMA source
was last programmed. -/
inductive DmaPtr where
  | ptrNone
  | fallbackAck
  | txGrantPtr
  | rxGrantPtr
deriving DecidableEq

/-- State of the radio wrapper, from EsbRadio in src/peripherals.rs,
together with the registers the wrapper programs.  The outgoing read
grant is a handle on the head frame of the app-to-radio queue, so it is
carried as a Bool; the incoming write grant carries its bytes. -/
structure EsbRadio where
  txGrantHeld : Bool
  rxGrant : Option Frame
  lastCrc : List Nat
  lastPid : List Nat
  cachedPipe : Nat
  shortRxen : Bool
  shortTxen : Bool
  txaddress : Nat
  rxaddresses : Nat
  packetPtr : DmaPtr
  intDisabled : Bool
  intReady : Bool
deriving DecidableEq

/-- Radio stop, from EsbRadio::stop in src/peripherals.rs: both
turn-around short-cuts are cleared, the disabled interrupt is disabled,
and both retained grants are dropped (the read grant without release,
the write grant without commit). -/
def EsbRadio.stop (r : EsbRadio) : EsbRadio :=
  { r with shortRxen := false, shortTxen := false, intDisabled := false,
           txGrantHeld := false, rxGrant := none }

/-- Disable the disabled interrupt, from
EsbRadio::disable_disabled_interrupt. -/
def EsbRadio.disable_disabled_interrupt (r : EsbRadio) : EsbRadio :=
  { r with intDisabled := false }

/-- Transmit a packet, from EsbRadio::transmit in src/peripherals.rs.
The payload is the read grant on the head of the app-to-radio queue. -/
def EsbRadio.transmit (r : EsbRadio) (payload : Frame) (ack : Bool) : EsbRadio :=
  let r1 :=
    if ack then { r with shortRxen := true, intDisabled := true, intReady := true }
    else { r with intDisabled := true }
  { r1 with txaddress := PayloadR.pipe payload,
            rxaddresses := 2 ^ PayloadR.pipe payload,
            packetPtr := DmaPtr.txGrantPtr,
            txGrantHeld := true }

/-- End of an unacknowledged transmission, from
EsbRadio::finish_tx_no_ack: the retained read grant is released, which
pops the head of the app-to-radio queue. -/
def EsbRadio.finish_tx_no_ack (r : EsbRadio) (q : List Frame) :
    EsbRadio × List Frame :=
  if r.txGrantHeld then
    ({ r with txGrantHeld := false, intDisabled := false }, q.tail)
  else
    ({ r with intDisabled := false }, q)

/-- Prepare reception of an acknowledgment, from
EsbRadio::prepare_for_ack: the packet pointer moves to the fresh
incoming write grant and the disabled-to-rxen short-cut is cleared. -/
def EsbRadio.prepare_for_ack (r : EsbRadio) (rx_buf : Frame) : EsbRadio :=
  { r with packetPtr := DmaPtr.rxGrantPtr, rxGrant := some rx_buf,
           shortRxen := false }

/-- Result of EsbRadio::check_ack. -/
structure CheckAckOut where
  res : Except Error Bool
  radio : EsbRadio
  queue : List Frame
  committed : Option Frame

/-- Acknowledgment check, from EsbRadio::check_ack in src/peripherals.rs.
On CRC ok the retained read grant is released (popping the queue head),
the incoming grant is stamped with pipe and rssi and committed; on CRC
failure both grants are dropped.  A missing grant is an internal
error; the source takes the tx grant before discovering that the rx
grant is missing, which is mirrored here. -/
def EsbRadio.check_ack (r : EsbRadio) (crcOk : Bool) (rssi : Nat)
    (q : List Frame) : CheckAckOut :=
  if crcOk then
    if r.txGrantHeld then
      match r.rxGrant with
      | some rx =>
          let pipe := PayloadR.pipe (q.headD [])
          let rx1 := PayloadW.set_rssi (PayloadW.set_pipe rx pipe) rssi
          { res := Except.ok true,
            radio := { r with txGrantHeld := false, rxGrant := none },
            queue := q.tail,
            committed :=
              some (rx1.take (PayloadW.payload_len rx1 + EsbHeader.header_size)) }
      | none =>
          { res := Except.error Error.InternalError,
            radio := { r with txGrantHeld := false }, queue := q,
            committed := none }
    else
      { res := Except.error Error.InternalError, radio := r, queue := q,
        committed := none }
  else
    { res := Except.ok false,
      radio := { r with txGrantHeld := false, rxGrant := none },
      queue := q, committed := none }

/-- Hardware readings consumed by EsbRadio::check_packet: the CRC status,
the matched pipe, the received CRC and the rssi sample. -/
structure RxHw where
  crcOk : Bool
  rxmatch : Nat
  rxcrc : Nat
  rssi : Nat
deriving DecidableEq

/-- Result of EsbRadio::check_packet. -/
structure CheckPacketOut where
  res : Except Error RxPayloadState
  radio : EsbRadio
  queue : List Frame
  committed : Option Frame

/-- Received-packet check, from EsbRadio::check_packet in
src/peripherals.rs.  The queue argument is the app-to-radio consumer
holding payloads to embed in acknowledgments; the committed field is the
frame committed to the radio-to-app queue, when any. -/
def EsbRadio.check_packet (r : EsbRadio) (hw : RxHw) (q : List Frame) :
    CheckPacketOut :=
  if hw.crcOk = false then
    let r1 := r.stop
    { res := Except.ok RxPayloadState.BadCRC,
      radio := { r1 with shortTxen := true, intDisabled := true },
      queue := q, committed := none }
  else
    match r.rxGrant with
    | none =>
        { res := Except.error Error.InternalError, radio := r, queue := q,
          committed := none }
    | some rx =>
      let pipe := hw.rxmatch
      let crc := hw.rxcrc
      let pid := PayloadR.pid rx
      let ack := !(PayloadR.no_ack rx)
      let repeated := (r.lastCrc.getD pipe 0 == crc) && (r.lastPid.getD pipe 0 == pid)
      let step : EsbRadio × List Frame :=
        if ack then
          let r1 := { r with txaddress := pipe }
          let inner : EsbRadio × List Frame :=
            if repeated then
              (if pipe = r1.cachedPipe ∧ r1.txGrantHeld = true then
                 { r1 with packetPtr := DmaPtr.txGrantPtr }
               else
                 { r1 with packetPtr := DmaPtr.fallbackAck }, q)
            else
              let q1 := if r1.txGrantHeld then q.tail else q
              let r2 := { r1 with txGrantHeld := false }
              match q1.head? with
              | some _ => ({ r2 with txGrantHeld := true,
                                     packetPtr := DmaPtr.txGrantPtr }, q1)
              | none => ({ r2 with packetPtr := DmaPtr.fallbackAck }, q1)
          ({ inner.1 with shortTxen := false, shortRxen := true }, inner.2)
        else
          (r.stop, q)
      if repeated then
        { res := Except.ok (if ack then RxPayloadState.RepeatedAck
                            else RxPayloadState.RepeatedNoAck),
          radio := step.1, queue := step.2, committed := none }
      else
        let r3 := { step.1 with lastCrc := step.1.lastCrc.set pipe crc,
                                lastPid := step.1.lastPid.set pipe pid,
                                cachedPipe := pipe }
        match r3.rxGrant with
        | none =>
            { res := Except.error Error.InternalError, radio := r3,
              queue := step.2, committed := none }
        | some rx2 =>
            let rxS := PayloadW.set_pipe (PayloadW.set_rssi rx2 hw.rssi) pipe
            { res := Except.ok (if ack then RxPayloadState.Ack
                                else RxPayloadState.NoAck),
              radio := { r3 with rxGrant := none },
              queue := step.2,
              committed :=
                some (rxS.take (PayloadW.payload_len rxS + EsbHeader.header_size)) }

/-- PTX-role radio state, from src/irq.rs. -/
inductive StatePTX where
  | IdleTx
  | TransmitterTx
  | TransmitterTxNoAck
  | TransmitterWaitAck
  | TransmitterWaitRetransmit
deriving DecidableEq

/-- PRX-role radio state, from src/irq.rs. -/
inductive StatePRX where
  | IdleRx
  | Receiver
  | TransmittingAck
  | TransmittingRepeatedAck
deriving DecidableEq

/-- Disabled role marker, from src/irq.rs. -/
inductive DisabledSt where
  | Disabled
deriving DecidableEq

/-- Address configuration, from src/app.rs; it is carried opaquely by the
interrupt handle, so the bases, the two prefix groups and the channel
are plain numbers here. -/
structure Addresses where
  base0 : Nat
  base1 : Nat
  pfx0 : Nat
  pfx1 : Nat
  rf_channel : Nat
deriving DecidableEq

/-- Interrupt-side driver handle, from EsbIrq in src/irq.rs, generic over
the role-state type.  prod_to_app is the list of frames committed so far
into the radio-to-app queue; cons_from_app is the pending content of the
app-to-radio queue; timer is the opaque timer peripheral;
timerRetransmit and timerAck are the armed compare values of the two
timer channels; timerFlag is the value of the shared atomic flag. -/
structure EsbIrq (STATE : Type) where
  prod_to_app : List Frame
  cons_from_app : List Frame
  timer : Nat
  timerRetransmit : Option Nat
  timerAck : Option Nat
  radio : EsbRadio
  state : STATE
  addresses : Addresses
  attempts : Nat
  timerFlag : Bool
  config : Config

/-- Role transition to Disabled, from EsbIrq::into_disabled in
src/irq.rs: the radio is stopped, both timer compare interrupts are
cleared, pending flags are cleared, and the attempt counter resets. -/
def EsbIrq.into_disabled {S : Type} (s : EsbIrq S) : EsbIrq DisabledSt where
  prod_to_app := s.prod_to_app
  cons_from_app := s.cons_from_app
  timer := s.timer
  timerRetransmit := none
  timerAck := none
  radio := s.radio.stop
  state := DisabledSt.Disabled
  addresses := s.addresses
  attempts := 0
  timerFlag := false
  config := s.config

/-- Role transition to PTX, from EsbIrq::into_ptx in src/irq.rs. -/
def EsbIrq.into_ptx (s : EsbIrq DisabledSt) : EsbIrq StatePTX where
  prod_to_app := s.prod_to_app
  cons_from_app := s.cons_from_app
  timer := s.timer
  timerRetransmit := s.timerRetransmit
  timerAck := s.timerAck
  radio := s.radio
  state := StatePTX.IdleTx
  addresses := s.addresses
  attempts := 0
  timerFlag := s.timerFlag
  config := s.config

/-- Role transition to PRX, from EsbIrq::into_prx in src/irq.rs. -/
def EsbIrq.into_prx (s : EsbIrq DisabledSt) : EsbIrq StatePRX where
  prod_to_app := s.prod_to_app
  cons_from_app := s.cons_from_app
  timer := s.timer
  timerRetransmit := s.timerRetransmit
  timerAck := s.timerAck
  radio := s.radio
  state := StatePRX.IdleRx
  addresses := s.addresses
  attempts := 0
  timerFlag := s.timerFlag
  config := s.config

/-- Environment of one PTX radio-interrupt step: the harvested disabled
and timer flags, whether the radio-to-app producer grant succeeds, and
the CRC status and rssi sample read when an acknowledgment is checked. -/
structure PtxEvents where
  disabled : Bool
  timer : Bool
  rxGrantOk : Bool
  ackCrcOk : Bool
  rssi : Nat
deriving DecidableEq

/-- Dequeue-and-transmit, from EsbIrq::send_packet in src/irq.rs: peek
the next frame of the app-to-radio queue; when present transmit it and
move to TransmitterTx or TransmitterTxNoAck according to its no-ack bit;
when absent disable the disabled interrupt and idle. -/
def EsbIrq.send_packet (s : EsbIrq StatePTX) : EsbIrq StatePTX :=
  match s.cons_from_app.head? with
  | some packet =>
      let ack := !(PayloadR.no_ack packet)
      { s with radio := s.radio.transmit packet ack,
               state := if ack then StatePTX.TransmitterTx
                        else StatePTX.TransmitterTxNoAck }
  | none =>
      { s with radio := s.radio.disable_disabled_interrupt,
               state := StatePTX.IdleTx }

/-- Tail of the TransmitterWaitAck arm of EsbIrq::radio_interrupt in
src/irq.rs: perform the retransmission bookkeeping when requested, then
give up with MaximumAttempts once the u8 attempt counter exceeds the
configured maximum, releasing the pending frame and moving on. -/
def EsbIrq.after_wait_ack (s : EsbIrq StatePTX) (retransmit : Bool) :
    Except Error StatePTX × EsbIrq StatePTX :=
  let s1 :=
    if retransmit then
      { s with radio := s.radio.stop, attempts := (s.attempts + 1) % 256,
               state := StatePTX.TransmitterWaitRetransmit }
    else s
  if s1.config.maximum_transmit_attempts < s1.attempts then
    let s2 := { s1 with timerRetransmit := none }
    let s3 :=
      match s2.cons_from_app.head? with
      | some _ => { s2 with cons_from_app := s2.cons_from_app.tail }
      | none => s2
    let s4 := EsbIrq.send_packet { s3 with attempts := 0 }
    (Except.error Error.MaximumAttempts, s4)
  else
    (Except.ok s1.state, s1)

/-- One PTX radio-interrupt step, from EsbIrq::radio_interrupt for
StatePTX in src/irq.rs. -/
def EsbIrq.radio_interrupt (s : EsbIrq StatePTX) (ev : PtxEvents) :
    Except Error StatePTX × EsbIrq StatePTX :=
  let user_event := !ev.disabled && !ev.timer
  if user_event = true ∧ s.state ≠ StatePTX.IdleTx then
    (Except.ok s.state, s)
  else
    match s.state with
    | StatePTX.IdleTx =>
        if user_event = true then
          let s1 := EsbIrq.send_packet s
          (Except.ok s1.state, s1)
        else
          (Except.ok s.state, s)
    | StatePTX.TransmitterTxNoAck =>
        let fin := EsbRadio.finish_tx_no_ack s.radio s.cons_from_app
        let s1 := EsbIrq.send_packet
          { s with radio := fin.1, cons_from_app := fin.2 }
        (Except.ok s1.state, s1)
    | StatePTX.TransmitterTx =>
        if ev.rxGrantOk = true then
          let packet : Frame :=
            List.replicate (s.config.maximum_payload_size + EsbHeader.header_size) 0
          let s1 := { s with radio := s.radio.prepare_for_ack packet,
                             state := StatePTX.TransmitterWaitAck }
          let s2 := { s1 with
            timerRetransmit := some (s1.config.retransmit_delay - RAMP_UP_TIME),
            timerAck := some (s1.config.wait_for_ack_timeout + RAMP_UP_TIME) }
          (Except.ok s2.state, s2)
        else
          (Except.error Error.IncomingQueueFull,
           { s with radio := s.radio.stop, state := StatePTX.IdleTx })
    | StatePTX.TransmitterWaitAck =>
        if ev.disabled = true then
          let s1 := { s with timerAck := none }
          let out := EsbRadio.check_ack s1.radio ev.ackCrcOk ev.rssi s1.cons_from_app
          let s2 := { s1 with radio := out.radio, cons_from_app := out.queue,
                              prod_to_app := s1.prod_to_app ++ out.committed.toList }
          match out.res with
          | Except.error e => (Except.error e, s2)
          | Except.ok true =>
              let s3 := { s2 with timerRetransmit := none, attempts := 0 }
              EsbIrq.after_wait_ack (EsbIrq.send_packet s3) false
          | Except.ok false =>
              EsbIrq.after_wait_ack s2 true
        else
          EsbIrq.after_wait_ack s true
    | StatePTX.TransmitterWaitRetransmit =>
        let s1 := EsbIrq.send_packet s
        (Except.ok s1.state, s1)

/-- Iterate the PTX radio-interrupt step over a list of event inputs,
collecting the returned results. -/
def runPtx (s : EsbIrq StatePTX) :
    List PtxEvents → List (Except Error StatePTX) × EsbIrq StatePTX
  | [] => ([], s)
  | ev :: rest =>
      let step := EsbIrq.radio_interrupt s ev
      let tailRun := runPtx step.2 rest
      (step.1 :: tailRun.1, tailRun.2)

/-- Concrete frame of spec scenario 1 and 2: header rssi 0, pipe 2,
length 4, pid 0 with acknowledgment requested (bit zero set), payload
0xDE 0xAD 0xBE 0xEF. -/
def frameC1 : Frame := [0, 2, 4, 1, 222, 173, 190, 239]

/-- Radio wrapper state right after initialization. -/
def radioInit : EsbRadio where
  txGrantHeld := false
  rxGrant := none
  lastCrc := [0, 0, 0, 0, 0, 0, 0, 0]
  lastPid := [0, 0, 0, 0, 0, 0, 0, 0]
  cachedPipe := 0
  shortRxen := false
  shortTxen := false
  txaddress := 0
  rxaddresses := 0
  packetPtr := DmaPtr.ptrNone
  intDisabled := false
  intReady := false

/-- Default addresses from src/app.rs, packed into numbers. -/
def addressesDefault : Addresses where
  base0 := 0xE7E7E7E7
  base1 := 0xC2C2C2C2
  pfx0 := 0xC4C3C2E7
  pfx1 := 0xC8C7C6C5
  rf_channel := 2

/-- PTX handle freshly split with the default configuration and one
ack-requesting frame queued by the application. -/
def s0C1 : EsbIrq StatePTX where
  prod_to_app := []
  cons_from_app := [frameC1]
  timer := 0
  timerRetransmit := none
  timerAck := none
  radio := radioInit
  state := StatePTX.IdleTx
  addresses := addressesDefault
  attempts := 0
  timerFlag := false
  config := Config.default

/-- User-pended interrupt: neither the disabled event nor the timer flag
is set. -/
def evUser : PtxEvents where
  disabled := false
  timer := false
  rxGrantOk := true
  ackCrcOk := false
  rssi := 0

/-- Radio disabled event (end of transmission), no acknowledgment ever
arrives so the ack CRC reading stays false. -/
def evDis : PtxEvents := { evUser with disabled := true }

/-- Timer event (ack timeout or retransmission timer). -/
def evTim : PtxEvents := { evUser with timer := true }

/-- Event inputs of the retransmit-exhaustion scenario, up to and
including the fourth ack timeout. -/
def evs12C1 : List PtxEvents :=
  [evUser, evDis, evTim, evTim, evDis, evTim, evTim, evDis, evTim,
   evTim, evDis, evTim]

/-- The same scenario truncated right after the third ack timeout. -/
def evs9C1 : List PtxEvents :=
  [evUser, evDis, evTim, evTim, evDis, evTim, evTim, evDis, evTim]

/-- A received frame that does not request an acknowledgment: header
rssi 0, pipe 0, length 1, pid 0 with bit zero clear, payload 0xAA
(spec scenario 4). -/
def rxNoAckFrame : Frame := [0, 0, 1, 0, 170]

/-- PRX radio wrapper listening with the no-ack frame DMA-written into
its incoming write grant. -/
def radioPrxC2 : EsbRadio :=
  { radioInit with rxGrant := some rxNoAckFrame, shortTxen := true,
                   intDisabled := true, packetPtr := DmaPtr.rxGrantPtr }

/-- Hardware readings of that reception: CRC good, pipe 0 matched,
received CRC 7, which differs from the cached CRC 0 for pipe 0. -/
def hwNoAckC2 : RxHw where
  crcOk := true
  rxmatch := 0
  rxcrc := 7
  rssi := 40

/-- Header whose length 100 exceeds a configured maximum payload size of
32 bytes. -/
def hdrC3 : EsbHeader where
  rssi := 0
  pipe := 0
  length := 100
  pid_no_ack := 1

/-- App-to-radio producer with ample free space and no grant
outstanding. -/
def prodC3 : FrameProducer where
  free := 1000
  writeInProgress := false

/-- The write grant EsbApp::grant_packet hands back for hdrC3. -/
def wC3 : Frame := EsbHeader.into_bytes hdrC3 ++ List.replicate 100 0

/-- Configuration whose u16 sum wait_for_ack_timeout + 62 wraps. -/
def cBadC4 : Config := { Config.default with wait_for_ack_timeout := 65535 }

/-- PTX handle whose radio still holds the outgoing read grant. -/
def sC10 : EsbIrq StatePTX :=
  { s0C1 with radio := { radioInit with txGrantHeld := true } }

/-- Write grant with length byte 3 inside a seven-byte region. -/
def gC5 : Frame := [9, 2, 3, 1, 10, 20, 30]

/-- PTX handle sitting in TransmitterTx. -/
def sC7 : EsbIrq StatePTX := { s0C1 with state := StatePTX.TransmitterTx }

/-- Disabled event while the radio-to-app queue refuses the grant. -/
def evC7 : PtxEvents := { evDis with rxGrantOk := false }

/-- PTX handle sitting in TransmitterWaitAck. -/
def sC8 : EsbIrq StatePTX := { s0C1 with state := StatePTX.TransmitterWaitAck }

/-- Helper: reading back the byte just written at index i. -/
theorem frame_getD_set_self (l : List Nat) (i v : Nat) (h : i < l.length) :
    (l.set i v).getD i 0 = v := by
  induction l generalizing i with
  | nil => simp at h
  | cons a t ih =>
      cases i with
      | zero => rfl
      | succ n =>
          simp only [List.set_cons_succ, List.getD_cons_succ]
          exact ih n (by simpa using h)

/-- Helper: reading past the end of a byte list gives the default. -/
theorem frame_getD_of_le (l : List Nat) (i : Nat) (h : l.length ≤ i) :
    l.getD i 0 = 0 := by
  induction l generalizing i with
  | nil => simp [List.getD]
  | cons a t ih =>
      cases i with
      | zero => simp at h
      | succ n =>
          simp only [List.getD_cons_succ]
          exact ih n (by simpa using h)

/-- Helper: writing past the end of a byte list changes nothing. -/
theorem frame_set_of_le (l : List Nat) (i v : Nat) (h : l.length ≤ i) :
    l.set i v = l := by
  induction l generalizing i with
  | nil => rfl
  | cons a t ih =>
      cases i with
      | zero => simp at h
      | succ n =>
          simp only [List.set_cons_succ]
          rw [ih n (by simpa using h)]

/-- Claim C4, counterexample: the validation is claimed to reject exactly
when retransmit_delay is at most wait_for_ack_timeout + 62 read as exact
arithmetic (among the other three conditions), but with
wait_for_ack_timeout 65535 the u16 sum wraps to 61 and the configuration
passes although retransmit_delay 500 is well below the exact sum. -/
theorem c4_config_check_counterexample :
    ConfigBuilder.check cBadC4 = Except.ok cBadC4 ∧
    cBadC4.retransmit_delay ≤
      cBadC4.wait_for_ack_timeout + RETRANSMIT_DELAY_US_OFFSET ∧
    44 ≤ cBadC4.wait_for_ack_timeout ∧
    cBadC4.maximum_payload_size ≤ 252 := by
  refine ⟨rfl, by decide, by decide, by decide⟩

/-- Claim C4, amended: ConfigBuilder.check returns InvalidParameters if
and only if retransmit_delay is at most the u16-wrapping sum
wait_for_ack_timeout + 62 reduced modulo 65536, or retransmit_delay is
at most the ramp-up constant, or wait_for_ack_timeout is below 44, or
maximum_payload_size exceeds 252; otherwise it returns the configuration
unchanged. -/
theorem c4_config_check_amended (c : Config) :
    (ConfigBuilder.check c = Except.error Error.InvalidParameters ↔
      (c.retransmit_delay ≤
         (c.wait_for_ack_timeout + RETRANSMIT_DELAY_US_OFFSET) % 65536 ∨
       c.retransmit_delay ≤ RAMP_UP_TIME ∨
       c.wait_for_ack_timeout < 44 ∨
       252 < c.maximum_payload_size)) ∧
    (ConfigBuilder.check c = Except.ok c ↔
      ¬ (c.retransmit_delay ≤
           (c.wait_for_ack_timeout + RETRANSMIT_DELAY_US_OFFSET) % 65536 ∨
         c.retransmit_delay ≤ RAMP_UP_TIME ∨
         c.wait_for_ack_timeout < 44 ∨
         252 < c.maximum_payload_size)) := by
  unfold ConfigBuilder.check
  by_cases h : c.wait_for_ack_timeout < 44 ∨
      (c.retransmit_delay ≤
         (c.wait_for_ack_timeout + RETRANSMIT_DELAY_US_OFFSET) % 65536 ∨
       c.retransmit_delay ≤ RAMP_UP_TIME) ∨
      252 < c.maximum_payload_size
  · rw [if_pos h]
    constructor
    · exact ⟨fun _ => by tauto, fun _ => rfl⟩
    · constructor
      · intro hc
        exact absurd hc (by simp)
      · intro hn
        exact absurd (show c.wait_for_ack_timeout < 44 ∨
          (c.retransmit_delay ≤
             (c.wait_for_ack_timeout + RETRANSMIT_DELAY_US_OFFSET) % 65536 ∨
           c.retransmit_delay ≤ RAMP_UP_TIME) ∨
          252 < c.maximum_payload_size from h) (fun hh => hn (by tauto))
  · rw [if_neg h]
    constructor
    · constructor
      · intro hc
        exact absurd hc (by simp)
      · intro hd
        exact absurd (show c.wait_for_ack_timeout < 44 ∨
          (c.retransmit_delay ≤
             (c.wait_for_ack_timeout + RETRANSMIT_DELAY_US_OFFSET) % 65536 ∨
           c.retransmit_delay ≤ RAMP_UP_TIME) ∨
          252 < c.maximum_payload_size from by tauto) h
    · exact ⟨fun _ => fun hd => h (by tauto), fun _ => rfl⟩

/-- Claim C5: committing a write grant with a user byte count stores
min(used, length) into the length byte, where length is the current
length byte of the grant, commits exactly header_size + min(used,
length) bytes, and never commits more than header_size plus the length
recorded in the header. -/
theorem c5_commit_min (g : Frame) (used : Nat)
    (hbyte : g.getD EsbHeader.length_idx 0 < 256) :
    (PayloadW.commit g used).2
        = EsbHeader.header_size + min used (g.getD EsbHeader.length_idx 0) ∧
    ((PayloadW.commit g used).1).getD EsbHeader.length_idx 0
        = min used (g.getD EsbHeader.length_idx 0) ∧
    (PayloadW.commit g used).2
        ≤ EsbHeader.header_size + g.getD EsbHeader.length_idx 0 := by
  have hmod : min (PayloadW.payload_len g) used % 256
      = min (PayloadW.payload_len g) used :=
    Nat.mod_eq_of_lt (lt_of_le_of_lt (Nat.min_le_left _ _) hbyte)
  refine ⟨?_, ?_, ?_⟩
  · simp only [PayloadW.commit, PayloadW.payload_len, EsbHeader.header_size]
    omega
  · simp only [PayloadW.commit, PayloadW.payload_len, hmod]
    by_cases hi : EsbHeader.length_idx < g.length
    · rw [frame_getD_set_self g _ _ hi]
      omega
    · rw [frame_set_of_le g _ _ (Nat.le_of_not_lt hi)]
      have h0 : g.getD EsbHeader.length_idx 0 = 0 :=
        frame_getD_of_le g _ (Nat.le_of_not_lt hi)
      rw [h0]
      omega
  · simp only [PayloadW.commit, PayloadW.payload_len, EsbHeader.header_size]
    omega

/-- Witness for claim C5 at the concrete grant gC5 with used 2. -/
theorem c5_commit_min_witness :
    gC5.getD EsbHeader.length_idx 0 < 256 ∧
    (PayloadW.commit gC5 2).2
        = EsbHeader.header_size + min 2 (gC5.getD EsbHeader.length_idx 0) ∧
    ((PayloadW.commit gC5 2).1).getD EsbHeader.length_idx 0
        = min 2 (gC5.getD EsbHeader.length_idx 0) ∧
    (PayloadW.commit gC5 2).2
        ≤ EsbHeader.header_size + gC5.getD EsbHeader.length_idx 0 := by
  have h := c5_commit_min gC5 2 (by decide)
  exact ⟨by decide, h.1, h.2.1, h.2.2⟩

/-- Claim C9: committing with any used at least the recorded length L
commits exactly as many bytes as commit_all, namely header_size + L, and
no used value can make commit exceed commit_all. -/
theorem c9_commit_saturates (g : Frame) (used : Nat)
    (hL : g.getD EsbHeader.length_idx 0 ≤ used) :
    (PayloadW.commit g used).2 = (PayloadW.commit_all g).2 ∧
    (PayloadW.commit_all g).2
        = EsbHeader.header_size + g.getD EsbHeader.length_idx 0 ∧
    ∀ u : Nat, (PayloadW.commit g u).2 ≤ (PayloadW.commit_all g).2 := by
  refine ⟨?_, ?_, fun u => ?_⟩ <;>
    simp only [PayloadW.commit, PayloadW.commit_all, PayloadW.payload_len,
      EsbHeader.header_size] <;>
    omega

/-- Witness for claim C9 at the concrete grant gC5 with used 5. -/
theorem c9_commit_saturates_witness :
    gC5.getD EsbHeader.length_idx 0 ≤ 5 ∧
    (PayloadW.commit gC5 5).2 = (PayloadW.commit_all gC5).2 ∧
    (PayloadW.commit_all gC5).2
        = EsbHeader.header_size + gC5.getD EsbHeader.length_idx 0 := by
  have h := c9_commit_saturates gC5 5 (by decide)
  exact ⟨by decide, h.1, h.2.1⟩

/-- Claim C6: for every valid header (length at most 252, pid at most 3,
pipe at most 7, no_ack boolean), packing through into_bytes and
unpacking through from_bytes yields a header with the same four
fields. -/
theorem c6_header_roundtrip (rssi pipe len pid : Nat) (noAck : Bool)
    (hlen : len ≤ 252) (hpid : pid ≤ 3) (hpipe : pipe ≤ 7) :
    EsbHeader.from_bytes (EsbHeader.into_bytes
        ⟨rssi, pipe, len, pid * 2 + (if noAck then 0 else 1)⟩)
      = ⟨rssi, pipe, len, pid * 2 + (if noAck then 0 else 1)⟩ ∧
    (EsbHeader.from_bytes (EsbHeader.into_bytes
        ⟨rssi, pipe, len, pid * 2 + (if noAck then 0 else 1)⟩)).rssi = rssi ∧
    (EsbHeader.from_bytes (EsbHeader.into_bytes
        ⟨rssi, pipe, len, pid * 2 + (if noAck then 0 else 1)⟩)).pipe = pipe ∧
    (EsbHeader.from_bytes (EsbHeader.into_bytes
        ⟨rssi, pipe, len, pid * 2 + (if noAck then 0 else 1)⟩)).length = len ∧
    (EsbHeader.from_bytes (EsbHeader.into_bytes
        ⟨rssi, pipe, len, pid * 2 + (if noAck then 0 else 1)⟩)).pid_no_ack
      = pid * 2 + (if noAck then 0 else 1) :=
  ⟨rfl, rfl, rfl, rfl, rfl⟩

/-- Witness for claim C6 at rssi 9, pipe 2, length 4, pid 1, ack
requested. -/
theorem c6_header_roundtrip_witness :
    (4 ≤ 252 ∧ 1 ≤ 3 ∧ 2 ≤ 7) ∧
    EsbHeader.from_bytes (EsbHeader.into_bytes ⟨9, 2, 4, 3⟩) = ⟨9, 2, 4, 3⟩ := by
  have h := c6_header_roundtrip 9 2 4 1 false (by decide) (by decide) (by decide)
  exact ⟨⟨by decide, by decide, by decide⟩, h.1⟩

/-- Claim C7: in TransmitterTx, when the radio-to-app producer refuses
the write grant of maximum_payload_size + header_size bytes, the
interrupt step stops the radio, moves to IdleTx and returns
IncomingQueueFull, and the app-to-radio queue is untouched, so the
outgoing frame stays next readable. -/
theorem c7_incoming_queue_full (s : EsbIrq StatePTX) (ev : PtxEvents)
    (hs : s.state = StatePTX.TransmitterTx)
    (hd : ev.disabled = true)
    (hg : ev.rxGrantOk = false) :
    EsbIrq.radio_interrupt s ev =
      (Except.error Error.IncomingQueueFull,
       { s with radio := s.radio.stop, state := StatePTX.IdleTx }) ∧
    (EsbIrq.radio_interrupt s ev).2.cons_from_app = s.cons_from_app := by
  have hmain : EsbIrq.radio_interrupt s ev =
      (Except.error Error.IncomingQueueFull,
       { s with radio := s.radio.stop, state := StatePTX.IdleTx }) := by
    unfold EsbIrq.radio_interrupt
    rw [hd, hs]
    simp [hg]
  exact ⟨hmain, by rw [hmain]⟩

/-- Witness for claim C7 at the concrete handle sC7 and events evC7. -/
theorem c7_incoming_queue_full_witness :
    (sC7.state = StatePTX.TransmitterTx ∧ evC7.disabled = true ∧
     evC7.rxGrantOk = false) ∧
    (EsbIrq.radio_interrupt sC7 evC7).1 = Except.error Error.IncomingQueueFull ∧
    (EsbIrq.radio_interrupt sC7 evC7).2.state = StatePTX.IdleTx ∧
    (EsbIrq.radio_interrupt sC7 evC7).2.cons_from_app = sC7.cons_from_app := by
  have h := c7_incoming_queue_full sC7 evC7 rfl rfl rfl
  refine ⟨⟨rfl, rfl, rfl⟩, ?_, ?_, h.2⟩
  · rw [h.1]
  · rw [h.1]

/-- Claim C8: a user-pended interrupt (neither disabled event nor timer
flag) in any PTX state other than IdleTx returns Ok with the current
state and leaves the whole handle unchanged. -/
theorem c8_user_event_ignored (s : EsbIrq StatePTX) (ev : PtxEvents)
    (hd : ev.disabled = false) (ht : ev.timer = false)
    (hs : s.state ≠ StatePTX.IdleTx) :
    EsbIrq.radio_interrupt s ev = (Except.ok s.state, s) := by
  unfold EsbIrq.radio_interrupt
  rw [hd, ht]
  simp [hs]

/-- Witness for claim C8 at the concrete handle sC8 and a user event. -/
theorem c8_user_event_ignored_witness :
    (evUser.disabled = false ∧ evUser.timer = false ∧
     sC8.state ≠ StatePTX.IdleTx) ∧
    EsbIrq.radio_interrupt sC8 evUser = (Except.ok sC8.state, sC8) := by
  have h := c8_user_event_ignored sC8 evUser rfl rfl (by decide)
  exact ⟨⟨rfl, rfl, by decide⟩, h⟩

/-- Claim C10, counterexample: into_disabled is claimed to pass the radio
wrapper through unchanged, but it stops the radio; on a handle whose
radio still holds the outgoing read grant the wrapper differs after the
transition. -/
theorem c10_into_disabled_counterexample :
    (EsbIrq.into_disabled sC10).radio ≠ sC10.radio := by
  decide

/-- Claim C10, amended: into_ptx and into_prx set the attempts counter
to 0 and change only the state tag, passing every other field through
unchanged; into_disabled also sets attempts to 0 but in addition stops
the radio (dropping any held grants and clearing short-cuts and the
disabled interrupt), clears both timer compare interrupts and clears the
shared timer flag, while the queue endpoints, the timer peripheral, the
addresses and the configuration pass through unchanged. -/
theorem c10_role_transitions_amended :
    (∀ d : EsbIrq DisabledSt,
      EsbIrq.into_ptx d =
        { prod_to_app := d.prod_to_app, cons_from_app := d.cons_from_app,
          timer := d.timer, timerRetransmit := d.timerRetransmit,
          timerAck := d.timerAck, radio := d.radio,
          state := StatePTX.IdleTx, addresses := d.addresses,
          attempts := 0, timerFlag := d.timerFlag, config := d.config }) ∧
    (∀ d : EsbIrq DisabledSt,
      EsbIrq.into_prx d =
        { prod_to_app := d.prod_to_app, cons_from_app := d.cons_from_app,
          timer := d.timer, timerRetransmit := d.timerRetransmit,
          timerAck := d.timerAck, radio := d.radio,
          state := StatePRX.IdleRx, addresses := d.addresses,
          attempts := 0, timerFlag := d.timerFlag, config := d.config }) ∧
    (∀ (S : Type) (s : EsbIrq S),
      EsbIrq.into_disabled s =
        { prod_to_app := s.prod_to_app, cons_from_app := s.cons_from_app,
          timer := s.timer, timerRetransmit := none, timerAck := none,
          radio := s.radio.stop, state := DisabledSt.Disabled,
          addresses := s.addresses, attempts := 0, timerFlag := false,
          config := s.config }) :=
  ⟨fun _ => rfl, fun _ => rfl, fun _ _ => rfl⟩

/-- Claim C1, counterexample: with the default configuration
(maximum_transmit_attempts 3) and no acknowledgment ever arriving, after
exactly three ack timeouts the interrupt has never returned
MaximumAttempts: every step so far returned Ok, the state is
TransmitterWaitRetransmit, the attempt counter is 3 and the frame is
still queued, contradicting the claimed release, reset and return after
three timeouts. -/
theorem c1_three_timeouts_counterexample :
    (runPtx s0C1 evs9C1).1 =
      [Except.ok StatePTX.TransmitterTx,
       Except.ok StatePTX.TransmitterWaitAck,
       Except.ok StatePTX.TransmitterWaitRetransmit,
       Except.ok StatePTX.TransmitterTx,
       Except.ok StatePTX.TransmitterWaitAck,
       Except.ok StatePTX.TransmitterWaitRetransmit,
       Except.ok StatePTX.TransmitterTx,
       Except.ok StatePTX.TransmitterWaitAck,
       Except.ok StatePTX.TransmitterWaitRetransmit] ∧
    (runPtx s0C1 evs9C1).2.state = StatePTX.TransmitterWaitRetransmit ∧
    (runPtx s0C1 evs9C1).2.attempts = 3 ∧
    (runPtx s0C1 evs9C1).2.cons_from_app = [frameC1] ∧
    Config.default.maximum_transmit_attempts = 3 :=
  ⟨rfl, rfl, rfl, rfl, rfl⟩

/-- Claim C1, amended: the cycle TransmitterTx, TransmitterWaitAck,
TransmitterWaitRetransmit is observed exactly maximum_transmit_attempts
= 3 times; the interrupt returns MaximumAttempts exactly once, on the
fourth ack timeout (that is, after maximum_transmit_attempts + 1 ack
timeouts); at that point the frame is released from the app-to-radio
queue, the attempt counter resets to 0 and, with nothing further queued,
the state returns to IdleTx. -/
theorem c1_retransmit_exhaustion_amended :
    (runPtx s0C1 evs12C1).1 =
      [Except.ok StatePTX.TransmitterTx,
       Except.ok StatePTX.TransmitterWaitAck,
       Except.ok StatePTX.TransmitterWaitRetransmit,
       Except.ok StatePTX.TransmitterTx,
       Except.ok StatePTX.TransmitterWaitAck,
       Except.ok StatePTX.TransmitterWaitRetransmit,
       Except.ok StatePTX.TransmitterTx,
       Except.ok StatePTX.TransmitterWaitAck,
       Except.ok StatePTX.TransmitterWaitRetransmit,
       Except.ok StatePTX.TransmitterTx,
       Except.ok StatePTX.TransmitterWaitAck,
       Except.error Error.MaximumAttempts] ∧
    (runPtx s0C1 evs12C1).2.state = StatePTX.IdleTx ∧
    (runPtx s0C1 evs12C1).2.attempts = 0 ∧
    (runPtx s0C1 evs12C1).2.cons_from_app = [] ∧
    Config.default.maximum_transmit_attempts = 3 :=
  ⟨rfl, rfl, rfl, rfl, rfl⟩

/-- Claim C2, code evaluation at the failing input: a good-CRC reception
of a fresh packet that does not request an acknowledgment makes
check_packet return InternalError and commit nothing, because the
internal stop call had already dropped the incoming write grant. -/
theorem c2_noack_reception_internal_error :
    PayloadR.no_ack rxNoAckFrame = true ∧
    (radioPrxC2.lastCrc.getD hwNoAckC2.rxmatch 0 == hwNoAckC2.rxcrc) = false ∧
    (EsbRadio.check_packet radioPrxC2 hwNoAckC2 []).res
        = Except.error Error.InternalError ∧
    (EsbRadio.check_packet radioPrxC2 hwNoAckC2 []).committed = none :=
  ⟨rfl, rfl, rfl, rfl⟩

/-- Claim C3, code evaluation at the failing input: grant_packet never
consults the configured maximum payload size; for a header of length 100
it simply requests a 104-byte grant and succeeds, instead of rejecting
with MaximumPacketExceeded. -/
theorem c3_no_maximum_size_check :
    EsbApp.grant_packet prodC3 hdrC3 =
      Except.ok (wC3, { free := 1000, writeInProgress := true }) ∧
    EsbApp.grant_packet prodC3 hdrC3 ≠ Except.error Error.MaximumPacketExceeded ∧
    hdrC3.length = 100 := by
  refine ⟨rfl, ?_, rfl⟩
  intro h
  rw [show EsbApp.grant_packet prodC3 hdrC3 =
      Except.ok (wC3, { free := 1000, writeInProgress := true }) from rfl] at h
  exact Except.noConfusion h
